import Mathlib

/-!
Verification of the cofonita-web dashboard services.

The repository consists of two concatenated Express services in
`src/dashboard-server.js`: a dashboard front-end server (first part) and an
OAuth2 auth backend (second part).  This file gives a shallow embedding of the
pure logic of those services and proves/refutes the specification claims.

Modelling conventions:
- JavaScript strings are Lean `String`s; character-level operations work on
  `String.data : List Char`.
- JavaScript numbers holding counts are `Nat`; the single fractional value
  (the `uptime` constant `99.8`) is modelled as a rational `(998 : ℚ) / 10`.
  `Number.prototype.toFixed(1)` is modelled on rationals with ties rounded
  up, following the ES specification ("pick the larger n") on the exact
  value; binary floating-point representation error is abstracted away.
- `axios` calls are modelled by an `Option` argument: `none` is a failed call
  (timeout, network error, or a non-2xx status, all of which make axios
  throw), `some r` is a 2xx response with body `r`.
- Express handlers become pure functions from the request-relevant state to a
  response value; `res.status(..).json(..)` becomes a record with a `status`
  field and body fields.
-/

/-! ## HTML escaping (dashboard variant, `escapeHtml`, src lines 130-138)

The source applies five global `String.replace` passes in this order:
`&` to `&amp;`, `<` to `&lt;`, `>` to `&gt;`, `"` to `&quot;`,
`'` to `&#039;`.  `replAll c r` is one global single-character replace pass.
-/

/-- Replace every occurrence of the character `c` by the string `r`
(one `String.prototype.replace(/c/g, r)` pass). -/
def replAll (c : Char) (r : List Char) : List Char → List Char
  | [] => []
  | x :: xs => if x = c then r ++ replAll c r xs else x :: replAll c r xs

/-- The entity for `&`. -/
def ampE : List Char := ['&', 'a', 'm', 'p', ';']

/-- The entity for `<`. -/
def ltE : List Char := ['&', 'l', 't', ';']

/-- The entity for `>`. -/
def gtE : List Char := ['&', 'g', 't', ';']

/-- The entity for the double quote. -/
def quotE : List Char := ['&', 'q', 'u', 'o', 't', ';']

/-- The entity for the single quote. -/
def aposE : List Char := ['&', '#', '0', '3', '9', ';']

/-- The five sequential replacement passes of `escapeHtml`, in source order. -/
def escapeHtmlList (l : List Char) : List Char :=
  replAll '\'' aposE (replAll '"' quotE (replAll '>' gtE (replAll '<' ltE (replAll '&' ampE l))))

/-- `escapeHtml` from src/dashboard-server.js lines 130-138.  (The guard
`if (!text) return ''` maps the empty string to itself, which the character
pipeline also does, so it needs no separate case for string inputs.) -/
def escapeHtml (s : String) : String := ⟨escapeHtmlList s.data⟩

/-- The per-character escape table of the source: each special character maps
to its entity and every other character is kept. -/
def escChar (c : Char) : List Char :=
  if c = '&' then ampE
  else if c = '<' then ltE
  else if c = '>' then gtE
  else if c = '"' then quotE
  else if c = '\'' then aposE
  else [c]

/-- A character list is well escaped when it contains no `<`, `>`, `"`, `'`
at all and every `&` occurrence starts one of the five entities
`&amp;` `&lt;` `&gt;` `&quot;` `&#039;`. -/
def wellEscaped : List Char → Bool
  | [] => true
  | c :: rest =>
    if c = '&' then
      if ['a', 'm', 'p', ';'].isPrefixOf rest then wellEscaped (rest.drop 4)
      else if ['l', 't', ';'].isPrefixOf rest then wellEscaped (rest.drop 3)
      else if ['g', 't', ';'].isPrefixOf rest then wellEscaped (rest.drop 3)
      else if ['q', 'u', 'o', 't', ';'].isPrefixOf rest then wellEscaped (rest.drop 5)
      else if ['#', '0', '3', '9', ';'].isPrefixOf rest then wellEscaped (rest.drop 5)
      else false
    else (!(c = '<') && !(c = '>') && !(c = '"') && !(c = '\'')) && wellEscaped rest
termination_by l => l.length
decreasing_by all_goals (simp [List.length_drop]; try omega)

theorem wellEscaped_amp (r : List Char) :
    wellEscaped ('&' :: 'a' :: 'm' :: 'p' :: ';' :: r) = wellEscaped r := by
  rw [wellEscaped]; simp +decide [List.isPrefixOf]

theorem wellEscaped_lt (r : List Char) :
    wellEscaped ('&' :: 'l' :: 't' :: ';' :: r) = wellEscaped r := by
  rw [wellEscaped]; simp +decide [List.isPrefixOf]

theorem wellEscaped_gt (r : List Char) :
    wellEscaped ('&' :: 'g' :: 't' :: ';' :: r) = wellEscaped r := by
  rw [wellEscaped]; simp +decide [List.isPrefixOf]

theorem wellEscaped_quot (r : List Char) :
    wellEscaped ('&' :: 'q' :: 'u' :: 'o' :: 't' :: ';' :: r) = wellEscaped r := by
  rw [wellEscaped]; simp +decide [List.isPrefixOf]

theorem wellEscaped_apos (r : List Char) :
    wellEscaped ('&' :: '#' :: '0' :: '3' :: '9' :: ';' :: r) = wellEscaped r := by
  rw [wellEscaped]; simp +decide [List.isPrefixOf]

theorem wellEscaped_cons_plain (c : Char) (r : List Char)
    (h1 : c ≠ '&') (h2 : c ≠ '<') (h3 : c ≠ '>') (h4 : c ≠ '"') (h5 : c ≠ '\'')
    (hr : wellEscaped r = true) : wellEscaped (c :: r) = true := by
  rw [wellEscaped]; simp [h1, h2, h3, h4, h5, hr]

theorem replAll_append (c : Char) (r a b : List Char) :
    replAll c r (a ++ b) = replAll c r a ++ replAll c r b := by
  induction a with
  | nil => rfl
  | cons x xs ih => simp [replAll, ih]; split <;> simp

theorem escapeHtmlList_append (a b : List Char) :
    escapeHtmlList (a ++ b) = escapeHtmlList a ++ escapeHtmlList b := by
  simp [escapeHtmlList, replAll_append]

theorem escapeHtmlList_singleton (x : Char) : escapeHtmlList [x] = escChar x := by
  by_cases h1 : x = '&'
  · subst h1; decide
  by_cases h2 : x = '<'
  · subst h2; decide
  by_cases h3 : x = '>'
  · subst h3; decide
  by_cases h4 : x = '"'
  · subst h4; decide
  by_cases h5 : x = '\''
  · subst h5; decide
  simp [escapeHtmlList, replAll, escChar, h1, h2, h3, h4, h5]

/-- The five sequential replace passes act characterwise: no pass rewrites
text introduced by an earlier pass, so the pipeline equals the pointwise
escape table. -/
theorem escapeHtmlList_eq_flatMap (l : List Char) :
    escapeHtmlList l = l.flatMap escChar := by
  induction l with
  | nil => rfl
  | cons x xs ih =>
    have hx : x :: xs = [x] ++ xs := rfl
    rw [hx, escapeHtmlList_append, escapeHtmlList_singleton]
    simp [List.flatMap_cons, ih]

theorem wellEscaped_flatMap (l : List Char) :
    wellEscaped (l.flatMap escChar) = true := by
  induction l with
  | nil => simp [wellEscaped]
  | cons x xs ih =>
    rw [List.flatMap_cons]
    by_cases h1 : x = '&'
    · subst h1
      show wellEscaped ('&' :: 'a' :: 'm' :: 'p' :: ';' :: xs.flatMap escChar) = true
      rw [wellEscaped_amp]; exact ih
    by_cases h2 : x = '<'
    · subst h2
      show wellEscaped ('&' :: 'l' :: 't' :: ';' :: xs.flatMap escChar) = true
      rw [wellEscaped_lt]; exact ih
    by_cases h3 : x = '>'
    · subst h3
      show wellEscaped ('&' :: 'g' :: 't' :: ';' :: xs.flatMap escChar) = true
      rw [wellEscaped_gt]; exact ih
    by_cases h4 : x = '"'
    · subst h4
      show wellEscaped ('&' :: 'q' :: 'u' :: 'o' :: 't' :: ';' :: xs.flatMap escChar) = true
      rw [wellEscaped_quot]; exact ih
    by_cases h5 : x = '\''
    · subst h5
      show wellEscaped ('&' :: '#' :: '0' :: '3' :: '9' :: ';' :: xs.flatMap escChar) = true
      rw [wellEscaped_apos]; exact ih
    · have hesc : escChar x = [x] := by simp [escChar, h1, h2, h3, h4, h5]
      rw [hesc]
      exact wellEscaped_cons_plain x _ h1 h2 h3 h4 h5 ih

theorem escChar_no_special (a c : Char) (hc : c ∈ escChar a) :
    c ≠ '<' ∧ c ≠ '>' ∧ c ≠ '"' ∧ c ≠ '\'' := by
  by_cases h1 : a = '&'
  · subst h1; simp [escChar, ampE] at hc; rcases hc with rfl | rfl | rfl | rfl | rfl <;> decide
  by_cases h2 : a = '<'
  · subst h2; simp [escChar, ltE, h1] at hc; rcases hc with rfl | rfl | rfl | rfl <;> decide
  by_cases h3 : a = '>'
  · subst h3; simp [escChar, gtE, h1, h2] at hc; rcases hc with rfl | rfl | rfl | rfl <;> decide
  by_cases h4 : a = '"'
  · subst h4; simp [escChar, quotE, h1, h2, h3] at hc
    rcases hc with rfl | rfl | rfl | rfl | rfl | rfl <;> decide
  by_cases h5 : a = '\''
  · subst h5; simp [escChar, aposE, h1, h2, h3, h4] at hc
    rcases hc with rfl | rfl | rfl | rfl | rfl | rfl <;> decide
  · simp [escChar, h1, h2, h3, h4, h5] at hc
    subst hc
    exact ⟨h2, h3, h4, h5⟩

/-- C1: for every string, `escapeHtml` replaces each occurrence of
`&` `<` `>` `"` `'` by its entity (the output is the pointwise image of the
escape table), and the result contains no `<`, `>`, `"`, `'` at all while
every ampersand in it starts an entity, so no special character remains
unescaped. -/
theorem escapeHtml_escapes_all_specials (s : String) :
    (escapeHtml s).data = s.data.flatMap escChar ∧
    wellEscaped (escapeHtml s).data = true ∧
    ∀ c ∈ (escapeHtml s).data, c ≠ '<' ∧ c ≠ '>' ∧ c ≠ '"' ∧ c ≠ '\'' := by
  have hd : (escapeHtml s).data = s.data.flatMap escChar := escapeHtmlList_eq_flatMap s.data
  refine ⟨hd, ?_, ?_⟩
  · rw [hd]; exact wellEscaped_flatMap s.data
  · rw [hd]
    intro c hc
    rw [List.mem_flatMap] at hc
    obtain ⟨a, _, hca⟩ := hc
    exact escChar_no_special a c hca

/-! ## encodeURIComponent

JavaScript `encodeURIComponent` keeps ASCII letters, digits and
`- _ . ! ~ * ' ( )` and percent-encodes every UTF-8 byte of every other
character, with uppercase hex digits. -/

/-- Uppercase hexadecimal digit for a value below 16. -/
def hexDigit (n : Nat) : Char :=
  if n < 10 then Char.ofNat (48 + n) else Char.ofNat (55 + n)

/-- The UTF-8 bytes of a unicode scalar value. -/
def utf8Bytes (c : Char) : List Nat :=
  let n := c.toNat
  if n < 128 then [n]
  else if n < 2048 then [192 + n / 64, 128 + n % 64]
  else if n < 65536 then [224 + n / 4096, 128 + (n / 64) % 64, 128 + n % 64]
  else [240 + n / 262144, 128 + (n / 4096) % 64, 128 + (n / 64) % 64, 128 + n % 64]

/-- Percent-encoding of one byte. -/
def pctByte (b : Nat) : List Char := ['%', hexDigit (b / 16), hexDigit (b % 16)]

/-- The characters `encodeURIComponent` leaves unencoded. -/
def uriUnreserved (c : Char) : Bool :=
  c.isAlpha || c.isDigit || c ∈ ['-', '_', '.', '!', '~', '*', '\'', '(', ')']

/-- JavaScript `encodeURIComponent`. -/
def encodeURIComponent (s : String) : String :=
  ⟨s.data.flatMap (fun c => if uriUnreserved c then [c] else (utf8Bytes c).flatMap pctByte)⟩

/-! ## Data model

Guild objects as delivered by the OAuth provider, the enriched guilds stored
in the session user, and the session user itself. -/

/-- A guild as returned by the identity provider before enrichment. -/
structure OAuthGuild where
  id : String
  name : String
  icon : Option String
  permissions : Nat
  approximate_member_count : Option Nat
deriving Repr, DecidableEq

/-- A guild after enrichment (auth backend, verify callback lines 709-719). -/
structure Guild where
  id : String
  name : String
  icon : Option String
  permissions : Nat
  approximate_member_count : Option Nat
  bot_installed : Bool
  manageable : Bool
  login_url : String
deriving Repr, DecidableEq

/-- The session user object. -/
structure User where
  id : String
  username : String
  discriminator : String
  avatar_url : String
  guilds : List Guild
deriving Repr, DecidableEq

/-- Guild enrichment from the DiscordStrategy verify callback (auth backend,
src lines 709-719): `bot_installed` is membership of the bot guild-id list,
`manageable` is `(guild.permissions & 0x8) === 0x8`.  The JavaScript `&`
operator coerces its operands with ToInt32, which for a nonnegative integer
keeps exactly the low 32 bits, hence the `% 2^32`. -/
def enrichGuild (websiteUrl : String) (botGuildIds : List String) (g : OAuthGuild) : Guild :=
  { id := g.id
    name := g.name
    icon := g.icon
    permissions := g.permissions
    approximate_member_count := g.approximate_member_count
    bot_installed := botGuildIds.contains g.id
    manageable := ((g.permissions % 4294967296) &&& 8) == 8
    login_url := websiteUrl ++ "/login?guild_id=" ++ g.id ++ "&redirect="
      ++ encodeURIComponent "/dashboard" }

/-- C2: the `manageable` flag computed during guild enrichment is set exactly
when the administrator bit (0x8) is set in the guild's permissions bitmask:
for every nonnegative bitmask P, `manageable(P) = ((P &&& 8) != 0)`. -/
theorem enrichGuild_manageable_iff_admin_bit (websiteUrl : String)
    (botGuildIds : List String) (g : OAuthGuild) :
    (enrichGuild websiteUrl botGuildIds g).manageable = (g.permissions &&& 8 != 0) := by
  show (((g.permissions % 4294967296) &&& 8) == 8) = (g.permissions &&& 8 != 0)
  have hmod : (g.permissions % 4294967296) &&& 8 = g.permissions &&& 8 := by
    have h8 : (8 : ℕ) = 2 ^ 3 := rfl
    have h32 : (4294967296 : ℕ) = 2 ^ 32 := rfl
    rw [h8, h32, Nat.and_two_pow, Nat.and_two_pow, Nat.testBit_mod_two_pow]
    norm_num
  rw [hmod]
  have h8 : (8 : ℕ) = 2 ^ 3 := rfl
  rw [h8, Nat.and_two_pow]
  cases h : g.permissions.testBit 3 <;> simp [h]

/-! ## Number formatting (dashboard variant, `formatNumber`, src lines 141-146) -/

/-- Model of `Number.prototype.toFixed(1)` for the nonnegative values that
occur in the source, on the exact rational value: the ES specification picks
the integer `t` with `t / 10` closest to the value and prefers the larger
`t` on ties, which for nonnegative values is `⌊q * 10 + 1 / 2⌋`. -/
def toFixed1 (q : ℚ) : String :=
  let t : ℤ := ⌊q * 10 + 1 / 2⌋
  toString (t / 10) ++ "." ++ toString (t % 10)

/-- `formatNumber` from src/dashboard-server.js lines 141-146. -/
def formatNumber (num : Nat) : String :=
  if num = 0 then "0"
  else if 1000000 ≤ num then toFixed1 ((num : ℚ) / 1000000) ++ "M"
  else if 1000 ≤ num then toFixed1 ((num : ℚ) / 1000) ++ "K"
  else toString num

theorem toString_intCast_nat (m : ℕ) : toString ((m : ℤ)) = toString m := rfl

theorem toFixed1_div_1000 (n : ℕ) :
    toFixed1 ((n : ℚ) / 1000) =
      toString ((n + 50) / 100 / 10) ++ "." ++ toString ((n + 50) / 100 % 10) := by
  have key : ((n : ℚ) / 1000) * 10 + 1 / 2 = ((n + 50 : ℕ) : ℚ) / ((100 : ℕ) : ℚ) := by
    push_cast
    field_simp
    ring
  rw [toFixed1]
  rw [key, Rat.floor_natCast_div_natCast]
  have h1 : ((n + 50 : ℕ) : ℤ) / ((100 : ℕ) : ℤ) = (((n + 50) / 100 : ℕ) : ℤ) :=
    (Int.natCast_div _ _).symm
  rw [h1]
  have h2 : (((n + 50) / 100 : ℕ) : ℤ) / (10 : ℤ) = (((n + 50) / 100 / 10 : ℕ) : ℤ) := by
    push_cast
    ring
  have h3 : (((n + 50) / 100 : ℕ) : ℤ) % (10 : ℤ) = (((n + 50) / 100 % 10 : ℕ) : ℤ) := by
    push_cast
    ring
  rw [h2, h3, toString_intCast_nat, toString_intCast_nat]

theorem toFixed1_div_1000000 (n : ℕ) :
    toFixed1 ((n : ℚ) / 1000000) =
      toString ((n + 50000) / 100000 / 10) ++ "."
        ++ toString ((n + 50000) / 100000 % 10) := by
  have key : ((n : ℚ) / 1000000) * 10 + 1 / 2
      = ((n + 50000 : ℕ) : ℚ) / ((100000 : ℕ) : ℚ) := by
    push_cast
    field_simp
    ring
  rw [toFixed1]
  rw [key, Rat.floor_natCast_div_natCast]
  have h1 : ((n + 50000 : ℕ) : ℤ) / ((100000 : ℕ) : ℤ)
      = (((n + 50000) / 100000 : ℕ) : ℤ) := (Int.natCast_div _ _).symm
  rw [h1]
  have h2 : (((n + 50000) / 100000 : ℕ) : ℤ) / (10 : ℤ)
      = (((n + 50000) / 100000 / 10 : ℕ) : ℤ) := by
    push_cast
    ring
  have h3 : (((n + 50000) / 100000 : ℕ) : ℤ) % (10 : ℤ)
      = (((n + 50000) / 100000 % 10 : ℕ) : ℤ) := by
    push_cast
    ring
  rw [h2, h3, toString_intCast_nat, toString_intCast_nat]

/-- C8: `formatNumber` abbreviates with one decimal and an `M` suffix at and
above 1,000,000, with one decimal and a `K` suffix between 1,000 and
999,999, prints the plain decimal form below 1,000, and renders 0 as "0".
The one-decimal rounding of `n / 1000` is made explicit as the integer
`(n + 50) / 100` (the number of tenths of a K, rounded half up), printed as
`tenths / 10 "." tenths % 10`, and likewise for millions. -/
theorem formatNumber_abbreviation (n : Nat) :
    (n = 0 → formatNumber n = "0") ∧
    (0 < n → n < 1000 → formatNumber n = toString n) ∧
    (1000 ≤ n → n < 1000000 →
      formatNumber n = toString ((n + 50) / 100 / 10) ++ "."
        ++ toString ((n + 50) / 100 % 10) ++ "K") ∧
    (1000000 ≤ n →
      formatNumber n = toString ((n + 50000) / 100000 / 10) ++ "."
        ++ toString ((n + 50000) / 100000 % 10) ++ "M") := by
  refine ⟨?_, ?_, ?_, ?_⟩
  · intro h; simp [formatNumber, h]
  · intro h0 h1
    have e0 : ¬(n = 0) := by omega
    have e1 : ¬(1000000 ≤ n) := by omega
    have e2 : ¬(1000 ≤ n) := by omega
    simp [formatNumber, e0, e1, e2]
  · intro h1 h2
    have e0 : ¬(n = 0) := by omega
    have e1 : ¬(1000000 ≤ n) := by omega
    simp [formatNumber, e0, e1, h1, toFixed1_div_1000]
  · intro h1
    have e0 : ¬(n = 0) := by omega
    simp [formatNumber, e0, h1, toFixed1_div_1000000]

/-- C8 witness: the abbreviation theorem evaluated at 0, 999, 1500 and
2,500,000. -/
theorem formatNumber_abbreviation_witness :
    formatNumber 0 = "0" ∧ formatNumber 999 = "999" ∧
    formatNumber 1500 = "1.5K" ∧ formatNumber 2500000 = "2.5M" := by
  refine ⟨(formatNumber_abbreviation 0).1 rfl, ?_, ?_, ?_⟩
  · have h := (formatNumber_abbreviation 999).2.1 (by omega) (by omega)
    rw [h]; decide
  · have h := (formatNumber_abbreviation 1500).2.2.1 (by omega) (by omega)
    rw [h]; decide
  · have h := (formatNumber_abbreviation 2500000).2.2.2 (by omega)
    rw [h]; decide

/-! ## Bot-guild cache (auth backend, `getBotGuilds`, src lines 638-681)

One call to `getBotGuilds` is a step function on the cache state.  Inputs:
whether `DISCORD_TOKEN` is configured (always true in a running process,
since startup aborts without it, src lines 598-601), the cache, `Date.now()`,
and the outcome of the Discord API request (consulted only when a request is
issued).  Output: the returned guild list, the new cache state, and whether
an upstream request was issued.  `lastUpdate` is a `Nat` whose value 0 models
both the initial `null` and a stored epoch-0 timestamp; the source guard
`botCache.lastUpdate && (now - botCache.lastUpdate) < 300000` treats both as
falsy the same way. -/

/-- One guild object used as concrete test data. -/
def gA : OAuthGuild := ⟨"1", "alpha", none, 8, none⟩

/-- Another guild object used as concrete test data. -/
def gB : OAuthGuild := ⟨"2", "beta", none, 0, none⟩

/-- The in-process bot-guild cache (src lines 638-646). -/
structure BotCache where
  guilds : List OAuthGuild
  lastUpdate : Nat
deriving Repr, DecidableEq

/-- The source's cache-validity guard
`botCache.lastUpdate && (now - botCache.lastUpdate) < 300000`
(JavaScript subtraction of a later timestamp is negative and hence below
300000; `Nat` truncated subtraction is 0 and hence also below 300000). -/
def cacheFresh (cache : BotCache) (now : Nat) : Bool :=
  cache.lastUpdate != 0 && now - cache.lastUpdate < 300000

/-- One call to `getBotGuilds` (src lines 649-681): without a token return
the empty list; with a fresh cache return it unchanged without a request;
otherwise issue the request and on success store the response and the
timestamp, on error (the catch block) return the empty list and leave the
cache untouched. -/
def getBotGuilds (hasToken : Bool) (cache : BotCache) (now : Nat)
    (fetch : Option (List OAuthGuild)) : List OAuthGuild × BotCache × Bool :=
  if !hasToken then ([], cache, false)
  else if cacheFresh cache now then (cache.guilds, cache, false)
  else match fetch with
    | some gs => (gs, ⟨gs, now⟩, true)
    | none => ([], cache, true)

/-- C3 counterexample: with a stale non-empty cache and a failing upstream
request, `getBotGuilds` does not return the previous cached list `[gA]` —
the catch block returns the empty list instead. -/
theorem getBotGuilds_error_not_cached_list_cex :
    ¬ ((getBotGuilds true ⟨[gA], 1⟩ 300001 none).1 = [gA]) := by decide

/-- C3 amended: `getBotGuilds` never raises on upstream failure — it is a
total function into a result value — but on a failed refresh it logs and
returns the empty list, not the previously cached list; the cache itself is
left unchanged. -/
theorem getBotGuilds_error_returns_empty (cache : BotCache) (now : Nat)
    (h : cacheFresh cache now = false) :
    getBotGuilds true cache now none = ([], cache, true) := by
  simp [getBotGuilds, h]

/-- C3 witness: the amended failure behaviour at a concrete stale cache. -/
theorem getBotGuilds_error_returns_empty_witness :
    getBotGuilds true ⟨[gA], 1⟩ 300001 none = ([], ⟨[gA], 1⟩, true) :=
  getBotGuilds_error_returns_empty ⟨[gA], 1⟩ 300001 (by decide)

/-- C4 counterexample: two calls at times 0 and 1 (1 millisecond apart, well
within the 300,000 ms window) both issue an upstream request, because the
first call's request fails and therefore never sets `lastUpdate`.  This
refutes the claim that any two calls less than 300,000 ms apart make at most
one upstream request. -/
theorem botCache_ttl_two_calls_cex :
    (1 : Nat) - 0 < 300000 ∧
    (getBotGuilds true ⟨[], 0⟩ 0 none).2.2 = true ∧
    (getBotGuilds true (getBotGuilds true ⟨[], 0⟩ 0 none).2.1 1 (some [gA])).2.2 = true := by
  decide

/-- C4 amended: the TTL property holds relative to the cache timestamp
rather than call times.  When the cache is fresh (a successful refresh
happened at a nonzero timestamp less than 300,000 ms ago) a call issues no
upstream request and returns the cached list unchanged; when the cache is
stale a call issues a request and on success replaces the cached list and
sets the timestamp to `now`; and after a successful refresh at nonzero time
`now`, any call before `now + 300000` is served from the cache without a
request. -/
theorem botCache_ttl_behavior (cache : BotCache) (now now2 : Nat)
    (gs : List OAuthGuild) (fetch : Option (List OAuthGuild)) :
    (cacheFresh cache now = true →
      getBotGuilds true cache now fetch = (cache.guilds, cache, false)) ∧
    (cacheFresh cache now = false →
      getBotGuilds true cache now (some gs) = (gs, ⟨gs, now⟩, true)) ∧
    (now ≠ 0 → now2 - now < 300000 →
      getBotGuilds true ⟨gs, now⟩ now2 fetch = (gs, ⟨gs, now⟩, false)) := by
  refine ⟨?_, ?_, ?_⟩
  · intro h; simp [getBotGuilds, h]
  · intro h; simp [getBotGuilds, h]
  · intro hn hw
    have hf : cacheFresh ⟨gs, now⟩ now2 = true := by
      simp [cacheFresh, bne_iff_ne, hn, hw]
    simp [getBotGuilds, hf]

/-- C4 witness: the cache-relative TTL behaviour at concrete times — a fresh
hit at time 6 after a refresh at time 5, and a stale refresh at time 7 from
an unset cache. -/
theorem botCache_ttl_behavior_witness :
    getBotGuilds true ⟨[gB], 5⟩ 6 none = ([gB], ⟨[gB], 5⟩, false) ∧
    getBotGuilds true ⟨[], 0⟩ 7 (some [gB]) = ([gB], ⟨[gB], 7⟩, true) := by
  constructor
  · exact (botCache_ttl_behavior ⟨[gB], 5⟩ 6 0 [] none).1 (by decide)
  · exact (botCache_ttl_behavior ⟨[], 0⟩ 7 0 [gB] (some [gB])).2.1 (by decide)

/-- C9: a failed refresh leaves the cache state entirely unchanged (both the
guild list and the timestamp), and therefore the very next call — at any
time not before the failed one, with any outcome — attempts the upstream
request again instead of waiting out the 5-minute window. -/
theorem getBotGuilds_failed_refresh_retries (cache : BotCache) (now now2 : Nat)
    (h : cacheFresh cache now = false) (h2 : now ≤ now2)
    (fetch2 : Option (List OAuthGuild)) :
    (getBotGuilds true cache now none).2.1 = cache ∧
    (getBotGuilds true ((getBotGuilds true cache now none).2.1) now2 fetch2).2.2 = true := by
  have hstep : getBotGuilds true cache now none = ([], cache, true) := by
    simp [getBotGuilds, h]
  refine ⟨by rw [hstep], ?_⟩
  rw [hstep]
  have hstale2 : cacheFresh cache now2 = false := by
    by_cases hlu : cache.lastUpdate = 0
    · simp [cacheFresh, hlu]
    · have hge : ¬(now - cache.lastUpdate < 300000) := by
        intro hc
        have : cacheFresh cache now = true := by
          simp [cacheFresh, bne_iff_ne, hlu, hc]
        rw [this] at h
        exact absurd h (by simp)
      have hge2 : ¬(now2 - cache.lastUpdate < 300000) := by omega
      simp [cacheFresh, hge2]
  simp only [getBotGuilds, hstale2]
  cases fetch2 <;> simp

/-- C9 witness: the failed-refresh retry behaviour at a concrete stale
cache and concrete times. -/
theorem getBotGuilds_failed_refresh_retries_witness :
    (getBotGuilds true ⟨[gA], 1⟩ 300001 none).2.1 = ⟨[gA], 1⟩ ∧
    (getBotGuilds true ((getBotGuilds true ⟨[gA], 1⟩ 300001 none).2.1) 300002
      (some [gB])).2.2 = true :=
  getBotGuilds_failed_refresh_retries ⟨[gA], 1⟩ 300001 300002 (by decide) (by decide) (some [gB])

/-! ## POST /api/guild/:guildId/connect (both variants)

The dashboard variant (src lines 388-420) guards with one lookup for a guild
that has the requested id AND is manageable, answering 403 when the lookup
fails; the auth backend variant (src lines 962-1000) first looks the id up
(404 when absent) and then checks `manageable` (403 when false). -/

/-- A JSON response of the connect routes: the HTTP status plus the body
fields the handlers set (`none` = field absent).  `forwardedBody` carries an
upstream body forwarded verbatim by the dashboard proxy. -/
structure ConnRes where
  status : Nat
  success : Option Bool := none
  error : Option String := none
  message : Option String := none
  login_url : Option String := none
  forwardedBody : Option String := none
deriving Repr, DecidableEq

/-- The dashboard variant of POST /api/guild/:guildId/connect (src lines
388-420).  `proxy` is the upstream proxy call: `none` = axios threw. -/
def connectDashboard (user : User) (guildId : String) (proxy : Option String) : ConnRes :=
  match user.guilds.find? (fun g => g.id == guildId && g.manageable) with
  | none =>
    { status := 403, success := some false,
      error := some "No tienes permisos para administrar este servidor" }
  | some _ =>
    match proxy with
    | some body => { status := 200, forwardedBody := some body }
    | none =>
      { status := 500, success := some false,
        error := some "Error al conectar el bot al servidor" }

/-- The auth backend variant of POST /api/guild/:guildId/connect (src lines
962-1000). -/
def connectAuth (websiteUrl : String) (user : User) (guildId : String) : ConnRes :=
  match user.guilds.find? (fun g => g.id == guildId) with
  | none =>
    { status := 404, success := some false, error := some "Servidor no encontrado" }
  | some g =>
    if !g.manageable then
      { status := 403, success := some false,
        error := some "No tienes permisos en este servidor" }
    else
      { status := 200, success := some true,
        message := some "Redirigiendo a inicio de sesión...",
        login_url := some (websiteUrl ++ "/login?guild_id=" ++ guildId
          ++ "&redirect=" ++ encodeURIComponent "/dashboard") }

/-- A session user with an empty guild list. -/
def uNoGuilds : User := ⟨"u1", "alice", "0001", "https://cdn/a.png", []⟩

/-- An enriched guild the user cannot manage. -/
def gNM : Guild := ⟨"7", "gamma", none, 0, none, false, false, ""⟩

/-- A session user whose only guild is not manageable. -/
def uGamma : User := ⟨"u2", "bob", "0002", "https://cdn/b.png", [gNM]⟩

/-- C5 counterexample: in the dashboard variant, a request for a guild id
absent from the session user's guild list is answered with HTTP 403, not the
claimed 404. -/
theorem connect_unknown_guild_dashboard_not_404_cex :
    (connectDashboard uNoGuilds "1" none).status = 403 ∧
    ¬ ((connectDashboard uNoGuilds "1" none).status = 404) := by decide

/-- C5 amended: the auth backend variant answers 404 for an unknown guild id
and 403 with a `{success: false, error}` JSON body for a known but
non-manageable guild; the dashboard variant folds both cases into a single
403 `{success: false, error}` response, since its lookup requires id match
and manageability at once. -/
theorem connect_authorization_responses (websiteUrl : String) (user : User)
    (guildId : String) (proxy : Option String) :
    (user.guilds.find? (fun g => g.id == guildId) = none →
      connectAuth websiteUrl user guildId =
        { status := 404, success := some false, error := some "Servidor no encontrado" }) ∧
    (∀ g, user.guilds.find? (fun g => g.id == guildId) = some g → g.manageable = false →
      (connectAuth websiteUrl user guildId).status = 403 ∧
      (connectAuth websiteUrl user guildId).success = some false ∧
      (connectAuth websiteUrl user guildId).error =
        some "No tienes permisos en este servidor") ∧
    (user.guilds.find? (fun g => g.id == guildId && g.manageable) = none →
      (connectDashboard user guildId proxy).status = 403 ∧
      (connectDashboard user guildId proxy).success = some false ∧
      (connectDashboard user guildId proxy).error =
        some "No tienes permisos para administrar este servidor") := by
  refine ⟨?_, ?_, ?_⟩
  · intro h; simp [connectAuth, h]
  · intro g hg hm; simp [connectAuth, hg, hm]
  · intro h; simp [connectDashboard, h]

/-- C5 witness: the amended responses at concrete users — an unknown guild
(auth variant, 404), a known non-manageable guild (auth variant, 403), and
the dashboard variant's 403 for a non-manageable guild. -/
theorem connect_authorization_responses_witness :
    connectAuth "https://w" uNoGuilds "1" =
      { status := 404, success := some false, error := some "Servidor no encontrado" } ∧
    (connectAuth "https://w" uGamma "7").status = 403 ∧
    (connectDashboard uGamma "7" none).status = 403 := by
  refine ⟨?_, ?_, ?_⟩
  · exact (connect_authorization_responses "https://w" uNoGuilds "1" none).1 (by decide)
  · exact ((connect_authorization_responses "https://w" uGamma "7" none).2.1 gNM
      (by decide) (by decide)).1
  · exact ((connect_authorization_responses "https://w" uGamma "7" none).2.2 (by decide)).1

/-! ## Auth gate (dashboard variant, `checkAuth`, src lines 58-100) -/

/-- The body of the main server's GET /api/user response. -/
structure ApiUserResp where
  success : Bool
  user : Option User
deriving Repr, DecidableEq

/-- Outcome of the `checkAuth` middleware: proceed to the route handler with
the session as it now stands, or redirect, likewise carrying the session. -/
inductive AuthOutcome where
  | proceed (session : Option User)
  | redirect (url : String) (session : Option User)
deriving Repr, DecidableEq

/-- `checkAuth` (src lines 58-100): a session user short-circuits; otherwise
the main server's /api/user is consulted, and only a response with
`success` and a user object stores the user in the session and proceeds;
every other outcome redirects to the frontend login URL with the original
request path as the `redirect` query parameter. -/
def checkAuth (frontendUrl : String) (session : Option User)
    (upstream : Option ApiUserResp) (originalUrl : String) : AuthOutcome :=
  match session with
  | some u => .proceed (some u)
  | none =>
    match upstream with
    | some resp =>
      match resp.user with
      | some u =>
        if resp.success then .proceed (some u)
        else .redirect (frontendUrl ++ "/login?error=session_expired&redirect="
          ++ encodeURIComponent originalUrl) none
      | none => .redirect (frontendUrl ++ "/login?error=session_expired&redirect="
          ++ encodeURIComponent originalUrl) none
    | none => .redirect (frontendUrl ++ "/login?error=session_expired&redirect="
        ++ encodeURIComponent originalUrl) none

/-- C6: with no session user, whenever the delegated /api/user call fails —
network error or timeout (`upstream = none`), or any response that does not
report success together with a user object — `checkAuth` redirects to the
external login URL whose `redirect` query parameter is the URL-encoded
originally requested path, and the session user stays unset. -/
theorem checkAuth_failure_redirects (frontendUrl : String)
    (upstream : Option ApiUserResp) (originalUrl : String)
    (h : ∀ resp, upstream = some resp → resp.success = false ∨ resp.user = none) :
    checkAuth frontendUrl none upstream originalUrl =
      .redirect (frontendUrl ++ "/login?error=session_expired&redirect="
        ++ encodeURIComponent originalUrl) none := by
  cases upstream with
  | none => rfl
  | some resp =>
    rcases h resp rfl with hs | hu
    · cases hru : resp.user with
      | none => simp [checkAuth, hru]
      | some u => simp [checkAuth, hru, hs]
    · simp [checkAuth, hu]

/-- C6 witness: a failed upstream call for the path /dashboard redirects to
the production login URL with `redirect=%2Fdashboard` and no session user. -/
theorem checkAuth_failure_redirects_witness :
    checkAuth "https://cofonitabot.netlify.app" none none "/dashboard" =
      .redirect
        "https://cofonitabot.netlify.app/login?error=session_expired&redirect=%2Fdashboard"
        none := by
  have h := checkAuth_failure_redirects "https://cofonitabot.netlify.app" none "/dashboard"
    (fun resp hr => Option.noConfusion hr)
  rw [h]
  decide

/-! ## GET /api/bot/stats

The auth backend's handler (src lines 895-929) and the dashboard variant's
proxy (src lines 362-386). -/

/-- Body of a bot-stats JSON response.  `manageableServers` is present in
the auth backend's body and absent from the dashboard fallback body. -/
structure UpstreamStatsBody where
  success : Bool
  totalServers : Nat
  manageableServers : Option Nat
  totalUsers : Nat
  commandsUsed : Nat
  uptime : ℚ
deriving Repr, DecidableEq

/-- The auth backend's GET /api/bot/stats handler (src lines 895-929).
`cacheAfter` is the bot cache after the handler's `getBotGuilds()` call.
The try and catch branches produce the same field values (the stats object
construction is total), always with `success: true`. -/
def authBotStats (user : User) (cacheAfter : BotCache) : Nat × UpstreamStatsBody :=
  (200,
    { success := true
      totalServers := cacheAfter.guilds.length
      manageableServers := some ((user.guilds.filter (fun g => g.manageable)).length)
      totalUsers := 0
      commandsUsed := 0
      uptime := (998 : ℚ) / 10 })

/-- The dashboard variant's GET /api/bot/stats proxy (src lines 362-386):
a successful upstream call is forwarded verbatim; a failed one is answered
with HTTP 200 and a fallback body counting the session user's manageable
guilds. -/
def botStatsRoute (user : User) (proxy : Option UpstreamStatsBody) : Nat × UpstreamStatsBody :=
  match proxy with
  | some d => (200, d)
  | none =>
    (200,
      { success := true
        totalServers := (user.guilds.filter (fun g => g.manageable)).length
        manageableServers := none
        totalUsers := 0
        commandsUsed := 0
        uptime := (998 : ℚ) / 10 })

/-- C10: the dashboard stats proxy never returns an error envelope.  When
the upstream call fails it answers HTTP 200 with `success: true` and the
fallback stats (manageable-guild count, zero users and commands, uptime
99.8); and since the only upstream 2xx bodies this repository's main server
produces for this route come from `authBotStats`, which always sets
`success: true`, a forwarded body also reports success. -/
theorem botStatsRoute_never_error_envelope (user : User)
    (proxy : Option UpstreamStatsBody)
    (h : proxy = none ∨ ∃ u2 c, proxy = some (authBotStats u2 c).2) :
    (botStatsRoute user proxy).1 = 200 ∧
    (botStatsRoute user proxy).2.success = true ∧
    (proxy = none → (botStatsRoute user proxy).2 =
      { success := true
        totalServers := (user.guilds.filter (fun g => g.manageable)).length
        manageableServers := none
        totalUsers := 0
        commandsUsed := 0
        uptime := (998 : ℚ) / 10 }) := by
  rcases h with rfl | ⟨u2, c, rfl⟩
  · exact ⟨rfl, rfl, fun _ => rfl⟩
  · refine ⟨rfl, rfl, ?_⟩
    intro hc
    simp at hc

/-- C10 witness: the fallback response for a concrete user (whose one guild
is not manageable) after a failed upstream call. -/
theorem botStatsRoute_never_error_envelope_witness :
    (botStatsRoute uGamma none).1 = 200 ∧
    (botStatsRoute uGamma none).2.success = true ∧
    (botStatsRoute uGamma none).2 =
      { success := true, totalServers := 0, manageableServers := none,
        totalUsers := 0, commandsUsed := 0, uptime := (998 : ℚ) / 10 } := by
  have h := botStatsRoute_never_error_envelope uGamma none (Or.inl rfl)
  refine ⟨h.1, h.2.1, ?_⟩
  have hb := h.2.2 rfl
  rw [hb]
  simp [uGamma, gNM]

/-! ## GET /dashboard rendering (dashboard variant, src lines 111-352)

The handler reads the template, derives `userData` with falsy-field
defaults, builds the server-card HTML for the manageable guilds, fetches
stats with an inner try/catch whose catch substitutes defaults, and replaces
each placeholder token globally in the template.  The outer catch only
guards exceptions of the handler body itself (for example a failed template
read); in this pure model the body cannot throw, and the 500 error page is
therefore out of scope here. -/

/-- The stats record the dashboard handler works with. -/
structure Stats where
  totalServers : Nat
  totalUsers : Nat
  commandsUsed : Nat
  uptime : ℚ
deriving Repr, DecidableEq

/-- Body of the upstream stats response consumed by the dashboard handler. -/
structure StatsResp where
  success : Bool
  stats : Stats
deriving Repr, DecidableEq

/-- The handler's initial `statsData` (src lines 213-218). -/
def defaultStatsData : Stats := ⟨0, 0, 0, (998 : ℚ) / 10⟩

/-- `statsData` after the stats fetch (src lines 220-239): a successful
response replaces it wholesale; a response without `success` leaves the
defaults; a thrown request (the catch block) sets `totalServers` to the
manageable-guild count. -/
def statsAfterFetch (fetch : Option StatsResp) (manageableCount : Nat) : Stats :=
  match fetch with
  | some r => if r.success then r.stats else defaultStatsData
  | none => { defaultStatsData with totalServers := manageableCount }

/-- The `{{UPTIME}}` value (src line 251):
`statsData.uptime ? statsData.uptime.toFixed(1) : '99.8'`. -/
def uptimeStr (u : ℚ) : String := if u = 0 then "99.8" else toFixed1 u

/-- `userData` (src lines 121-127): falsy user fields get defaults. -/
def userDataOf (user : User) : User :=
  { user with
    username := if user.username = "" then "Usuario" else user.username
    discriminator := if user.discriminator = "" then "0000" else user.discriminator
    avatar_url := if user.avatar_url = ""
      then "https://cdn.discordapp.com/embed/avatars/0.png" else user.avatar_url }

/-- One server card (src lines 153-198).  The markup text is the source's,
with the template literal's indentation runs condensed to single newlines;
no claim depends on the literal whitespace. -/
def serverCardHTML (guild : Guild) : String :=
  let safeName := escapeHtml guild.name
  let icon : Option String := guild.icon.map (fun ic =>
    "https://cdn.discordapp.com/icons/" ++ guild.id ++ "/" ++ ic ++ ".png?size=256")
  "\n<div class=\"server-card\" data-guild-id=\"" ++ guild.id ++ "\">\n"
  ++ "<div class=\"server-header\">\n<div class=\"server-icon\">\n"
  ++ (match icon with
      | some ic =>
        "<img src=\"" ++ ic ++ "\" alt=\"" ++ safeName
          ++ "\" onerror=\"this.onerror=null; this.parentElement.innerHTML=\x27<i class=\\\x27fas fa-server\\\x27></i>\x27; this.parentElement.style.background=\x27linear-gradient(135deg, var(--primary) 0%, var(--secondary) 100%)\x27;\" loading=\"lazy\">"
      | none => "<i class=\"fas fa-server\"></i>")
  ++ "\n</div>\n<div style=\"flex: 1; min-width: 0;\">\n"
  ++ "<div class=\"server-name\">" ++ safeName ++ "</div>\n"
  ++ "<div class=\"server-info\">\n"
  ++ "<span class=\"server-status "
  ++ (if guild.bot_installed then "status-online" else "status-offline") ++ "\">\n"
  ++ "<i class=\"fas fa-circle\"></i>\n"
  ++ (if guild.bot_installed then "Bot conectado" else "Conectar bot") ++ "\n</span>\n"
  ++ "<span style=\"color: var(--text-muted); font-size: 12px;\">\n"
  ++ "<i class=\"fas fa-users\"></i>\n"
  ++ (match guild.approximate_member_count with
      | some n => if n = 0 then "?" else formatNumber n
      | none => "?")
  ++ "\n</span>\n</div>\n</div>\n</div>\n"
  ++ "<div class=\"server-actions\">\n"
  ++ (if guild.bot_installed then
        "<button class=\"btn btn-primary configure-btn\" data-guild-id=\"" ++ guild.id
          ++ "\">\n<i class=\"fas fa-cog\"></i> Configurar\n</button>"
      else
        "<button class=\"btn btn-primary connect-btn\" data-guild-id=\"" ++ guild.id
          ++ "\">\n<i class=\"fas fa-plug\"></i> Conectar\n</button>")
  ++ "\n<button class=\"btn btn-secondary view-btn\" data-guild-id=\"" ++ guild.id
  ++ "\">\n<i class=\"fas fa-eye\"></i> Ver\n</button>\n</div>\n</div>\n"

/-- The empty-state markup (src lines 200-210), whitespace condensed. -/
def noServersHTML : String :=
  "\n<div class=\"no-servers\">\n<i class=\"fas fa-server fa-3x\"></i>\n"
  ++ "<h3>No tienes servidores administrables</h3>\n"
  ++ "<p>Los servidores donde tengas permisos de administrador aparecerán aquí</p>\n"
  ++ "<button class=\"btn btn-primary\" onclick=\"window.location.reload()\">\n"
  ++ "<i class=\"fas fa-sync-alt\"></i> Recargar\n</button>\n</div>\n"

/-- `serversHTML` (src lines 148-210). -/
def serversHTMLFor (manageableGuilds : List Guild) : String :=
  if manageableGuilds.length > 0 then
    String.join (manageableGuilds.map serverCardHTML)
  else noServersHTML

/-- Left-to-right non-overlapping replacement of every occurrence of `pat`
by `rep`, as `String.prototype.replace(new RegExp(key, 'g'), value)` does
for the literal placeholder keys (the values substituted by the handler
contain no `$` replacement patterns). -/
def replaceSub (pat rep : List Char) : List Char → List Char
  | [] => []
  | x :: xs =>
    if h : pat ≠ [] ∧ pat.isPrefixOf (x :: xs) = true then
      rep ++ replaceSub pat rep ((x :: xs).drop pat.length)
    else x :: replaceSub pat rep xs
termination_by l => l.length
decreasing_by
  · have hp : 0 < pat.length := List.length_pos.mpr h.1
    simp [List.length_drop]
    omega
  · simp

/-- The replacement loop (src lines 258-262), applied in insertion order. -/
def applyReplacements (repls : List (String × String)) (html : String) : String :=
  repls.foldl (fun acc kv => ⟨replaceSub kv.1.data kv.2.data acc.data⟩) html

/-- The `replacements` object (src lines 242-256).  `x || y` on a count is
modelled as `if x = 0 then y else x`; `statsData.totalUsers || 0` and
`statsData.commandsUsed || 0` are identities on `Nat` and written plainly. -/
def dashboardReplacements (userData : User) (manageableGuilds : List Guild)
    (serversHTML : String) (statsData : Stats) (apiUrl websiteUrl : String) :
    List (String × String) :=
  [ ("\x7b\x7bUSERNAME\x7d\x7d", escapeHtml userData.username),
    ("\x7b\x7bDISCRIMINATOR\x7d\x7d", escapeHtml userData.discriminator),
    ("\x7b\x7bAVATAR_URL\x7d\x7d", userData.avatar_url),
    ("\x7b\x7bSERVER_COUNT\x7d\x7d", toString manageableGuilds.length),
    ("\x7b\x7bSERVERS_HTML\x7d\x7d", serversHTML),
    ("\x7b\x7bTOTAL_SERVERS\x7d\x7d", formatNumber
      (if statsData.totalServers = 0 then manageableGuilds.length
       else statsData.totalServers)),
    ("\x7b\x7bTOTAL_USERS\x7d\x7d", formatNumber statsData.totalUsers),
    ("\x7b\x7bCOMMANDS_USED\x7d\x7d", formatNumber statsData.commandsUsed),
    ("\x7b\x7bUPTIME\x7d\x7d", uptimeStr statsData.uptime),
    ("\x7b\x7bAPI_URL\x7d\x7d", apiUrl),
    ("\x7b\x7bWEBSITE_URL\x7d\x7d", websiteUrl),
    ("\x7b\x7bSERVERS_PLURAL\x7d\x7d", if manageableGuilds.length ≠ 1 then "es" else ""),
    ("\x7b\x7bADMIN_PLURAL\x7d\x7d", if manageableGuilds.length ≠ 1 then "s" else "") ]

/-- The manageable guilds of the handler's `userData` (src line 150). -/
def manageableOf (user : User) : List Guild :=
  (userDataOf user).guilds.filter (fun g => g.manageable)

/-- The replacement list the handler computes when the stats call failed. -/
def replOnStatsFailure (user : User) (apiUrl websiteUrl : String) :
    List (String × String) :=
  dashboardReplacements (userDataOf user) (manageableOf user)
    (serversHTMLFor (manageableOf user))
    (statsAfterFetch none (manageableOf user).length) apiUrl websiteUrl

/-- The /dashboard handler body after a successful template read
(src lines 111-267). -/
def renderDashboard (user : User) (template : String) (statsFetch : Option StatsResp)
    (apiUrl websiteUrl : String) : String :=
  let userData := userDataOf user
  let manageableGuilds := userData.guilds.filter (fun g => g.manageable)
  let serversHTML := serversHTMLFor manageableGuilds
  let statsData := statsAfterFetch statsFetch manageableGuilds.length
  applyReplacements
    (dashboardReplacements userData manageableGuilds serversHTML statsData
      apiUrl websiteUrl) template

/-- An HTML response of the /dashboard route. -/
structure HtmlResponse where
  status : Nat
  body : String
deriving Repr, DecidableEq

/-- The /dashboard route outcome: the rendered page with status 200.  A
failed stats fetch is consumed by the inner catch and never escapes to the
outer error page. -/
def dashboardRoute (user : User) (template : String) (statsFetch : Option StatsResp)
    (apiUrl websiteUrl : String) : HtmlResponse :=
  { status := 200, body := renderDashboard user template statsFetch apiUrl websiteUrl }

theorem uptimeStr_default : uptimeStr ((998 : ℚ) / 10) = "99.8" := by
  rw [uptimeStr, if_neg (by norm_num)]
  norm_num [toFixed1]
  decide

/-- C7: when the stats upstream call fails, the dashboard route still
answers with the rendered page (status 200), and the substituted values are
the defaults: `{{TOTAL_USERS}}` and `{{COMMANDS_USED}}` format 0,
`{{UPTIME}}` is "99.8", and `{{TOTAL_SERVERS}}` formats the count of the
user's manageable guilds. -/
theorem dashboard_stats_fallback (user : User) (template apiUrl websiteUrl : String) :
    dashboardRoute user template none apiUrl websiteUrl =
      { status := 200,
        body := applyReplacements (replOnStatsFailure user apiUrl websiteUrl) template } ∧
    (replOnStatsFailure user apiUrl websiteUrl).lookup "\x7b\x7bTOTAL_USERS\x7d\x7d"
      = some "0" ∧
    (replOnStatsFailure user apiUrl websiteUrl).lookup "\x7b\x7bCOMMANDS_USED\x7d\x7d"
      = some "0" ∧
    (replOnStatsFailure user apiUrl websiteUrl).lookup "\x7b\x7bUPTIME\x7d\x7d"
      = some "99.8" ∧
    (replOnStatsFailure user apiUrl websiteUrl).lookup "\x7b\x7bTOTAL_SERVERS\x7d\x7d"
      = some (formatNumber (manageableOf user).length) := by
  refine ⟨rfl, ?_, ?_, ?_, ?_⟩
  · simp +decide [replOnStatsFailure, dashboardReplacements, List.lookup,
      statsAfterFetch, defaultStatsData, formatNumber]
  · simp +decide [replOnStatsFailure, dashboardReplacements, List.lookup,
      statsAfterFetch, defaultStatsData, formatNumber]
  · simp +decide [replOnStatsFailure, dashboardReplacements, List.lookup,
      statsAfterFetch, defaultStatsData, uptimeStr_default]
  · simp +decide [replOnStatsFailure, dashboardReplacements, List.lookup,
      statsAfterFetch, defaultStatsData]

/-- C1 witness: the escape of the concrete string containing all five
special characters. -/
theorem escapeHtml_escapes_all_specials_witness :
    escapeHtml "<Test>&\x27\x22" = "&lt;Test&gt;&amp;&#039;&quot;" ∧
    wellEscaped (escapeHtml "<Test>&\x27\x22").data = true := by
  have h := escapeHtml_escapes_all_specials "<Test>&\x27\x22"
  constructor
  · apply String.ext
    rw [h.1]
    decide
  · exact h.2.1
